import Mathlib

/-!
Verification of the index-provisioning script `scripts/create-opensearch-index.py`
and the conversion tail of `architecture-diagram.py`.

The provisioner is a straight-line script: check whether the index
`rag-documents-prod` exists, delete it if so, create it with a constant
schema body, read the cluster health, read the index settings, and print a
success message; any exception aborts the run with `print` of the error
followed by `sys.exit(1)`.

We embed the script as a pure function from a failure-injection environment
(which remote calls raise, and with what message, plus the values returned
by the remote service) and the initial remote state (whether an index of
that name exists, and with what body) to a run result: the list of remote
calls issued, the lines printed to stdout and stderr, the process exit
code, and the final remote state.
-/

namespace RagProvision

/-- Field-type descriptors of the sub-fields of the `metadata` object in
the schema body of `create-opensearch-index.py` (all of them are simple
types in this script). -/
inductive LeafType where
  | keyword : LeafType
  | text : Option String → LeafType
  | date : LeafType
  | integer : LeafType
  deriving DecidableEq, Repr

/-- Field-type descriptors appearing at the top level of
`index_body.mappings.properties` in `create-opensearch-index.py`. -/
inductive FieldType where
  | keyword : FieldType
  | text : Option String → FieldType
  | date : FieldType
  | integer : FieldType
  | objectOf : List (String × LeafType) → FieldType
  | knnVector : Nat → String → String → String → Nat → Nat → FieldType
  deriving DecidableEq, Repr

/-- The index settings and mappings, as one record: `settings.number_of_shards`,
`settings.number_of_replicas`, `settings.index.knn`,
`settings.index.knn.algo_param.ef_search`, and `mappings.properties`. -/
structure IndexBody where
  number_of_shards : Nat
  number_of_replicas : Nat
  knn : Bool
  ef_search : Nat
  properties : List (String × FieldType)
  deriving DecidableEq, Repr

/-- `index_name = 'rag-documents-prod'` (line 28 of the script). -/
def index_name : String := "rag-documents-prod"

/-- `index_body` (lines 31-90 of the script), transcribed field by field.
The `knnVector` arguments are dimension, method name, space type, engine,
ef_construction, m. -/
def index_body : IndexBody :=
  { number_of_shards := 1
    number_of_replicas := 1
    knn := true
    ef_search := 512
    properties :=
      [ ("document_id", FieldType.keyword)
      , ("content", FieldType.text (some "standard"))
      , ("metadata", FieldType.objectOf
          [ ("source", LeafType.keyword)
          , ("title", LeafType.text none)
          , ("timestamp", LeafType.date)
          , ("page", LeafType.integer)
          , ("chunk_index", LeafType.integer) ])
      , ("embedding", FieldType.knnVector 1536 "hnsw" "l2" "nmslib" 512 16)
      , ("created_at", FieldType.date)
      , ("updated_at", FieldType.date) ] }

/-- One remote administrative call, with the arguments the script passes. -/
inductive Call where
  | indicesExists : String → Call
  | indicesDelete : String → Call
  | indicesCreate : String → IndexBody → Call
  | clusterHealth : String → Call
  | indicesGet : String → Call
  deriving DecidableEq, Repr

/-- Failure-injection environment for one run: for each remote call site,
`none` means the call succeeds and `some e` means it raises an exception
whose string form is `e`; plus the values the remote service returns on the
success paths (the create response printed by the script, and the `status`
field of the cluster-health reply). -/
structure Env where
  existsErr : Option String
  deleteErr : Option String
  createErr : Option String
  healthErr : Option String
  getErr : Option String
  createResponse : String
  healthStatus : String
  deriving DecidableEq, Repr

/-- Result of one run of the script: remote calls issued in order, stdout
lines, stderr lines, process exit code, and the final remote state of the
index under `index_name` (`none` = absent, `some b` = present with body `b`). -/
structure RunResult where
  trace : List Call
  stdout : List String
  stderr : List String
  exitCode : Nat
  state : Option IndexBody
  deriving DecidableEq, Repr

/-- The part of the run from the create call on (lines 99-112 of the
script): create the index, read cluster health, read the index settings,
print the final success line; any exception falls to the handler that
prints the error and exits 1.  `tr` and `out` accumulate the calls and
stdout lines of the steps already performed; the index is absent at entry
(either it never existed or it was just deleted). -/
def createPhase (name : String) (body : IndexBody) (env : Env)
    (tr : List Call) (out : List String) : RunResult :=
  match env.createErr with
  | some e =>
      ⟨tr ++ [Call.indicesCreate name body],
       out ++ ["Creating index " ++ name ++ "...", "Error: " ++ e],
       [], 1, none⟩
  | none =>
      match env.healthErr with
      | some e =>
          ⟨tr ++ [Call.indicesCreate name body, Call.clusterHealth name],
           out ++ ["Creating index " ++ name ++ "...",
                   "Index created successfully: " ++ env.createResponse,
                   "Error: " ++ e],
           [], 1, some body⟩
      | none =>
          match env.getErr with
          | some e =>
              ⟨tr ++ [Call.indicesCreate name body, Call.clusterHealth name,
                      Call.indicesGet name],
               out ++ ["Creating index " ++ name ++ "...",
                       "Index created successfully: " ++ env.createResponse,
                       "Index health: " ++ env.healthStatus,
                       "Error: " ++ e],
               [], 1, some body⟩
          | none =>
              ⟨tr ++ [Call.indicesCreate name body, Call.clusterHealth name,
                      Call.indicesGet name],
               out ++ ["Creating index " ++ name ++ "...",
                       "Index created successfully: " ++ env.createResponse,
                       "Index health: " ++ env.healthStatus,
                       "Index settings verified.",
                       "\nOpenSearch index setup completed successfully!"],
               [], 0, some body⟩

/-- One run of the try/except block (lines 92-116 of the script), for a
given index name and schema body: check existence, delete if present,
then `createPhase`.  A raising call appears in the trace (it was issued)
and aborts the run with the error printed and exit code 1. -/
def provisionRun (name : String) (body : IndexBody) (env : Env)
    (st : Option IndexBody) : RunResult :=
  match env.existsErr with
  | some e => ⟨[Call.indicesExists name], ["Error: " ++ e], [], 1, st⟩
  | none =>
      match st with
      | some old =>
          match env.deleteErr with
          | some e =>
              ⟨[Call.indicesExists name, Call.indicesDelete name],
               ["Index " ++ name ++ " already exists. Deleting...",
                "Error: " ++ e],
               [], 1, some old⟩
          | none =>
              createPhase name body env
                [Call.indicesExists name, Call.indicesDelete name]
                ["Index " ++ name ++ " already exists. Deleting...",
                 "Index " ++ name ++ " deleted."]
      | none =>
          createPhase name body env [Call.indicesExists name] []

/-- The script as shipped: `provisionRun` at the constants `index_name`
and `index_body`. -/
def scriptRun (env : Env) (st : Option IndexBody) : RunResult :=
  provisionRun index_name index_body env st

/-- The linear call sequence of the script when every call succeeds:
existence check, delete when an index existed, create, health, settings
read.  Every actual trace is an initial segment of this list. -/
def linearSeq (name : String) (body : IndexBody) (existed : Bool) : List Call :=
  Call.indicesExists name ::
    ((if existed then [Call.indicesDelete name] else []) ++
      [Call.indicesCreate name body, Call.clusterHealth name,
       Call.indicesGet name])

end RagProvision

namespace RagDiagram

/-- One observable event of the tail of `architecture-diagram.py`: writing
the SVG file, or running one PNG converter (tool name, whether the
`subprocess.run` call succeeded). -/
inductive DiagEvent where
  | writeSVG : String → DiagEvent
  | runConv : String → Bool → DiagEvent
  deriving DecidableEq, Repr

/-- Environment for one run of the diagram script: whether each of the
three converter invocations succeeds.  `false` covers both failure modes
the script catches (`CalledProcessError` and `FileNotFoundError`). -/
structure ConvEnv where
  rsvgOk : Bool
  inkscapeOk : Bool
  magickOk : Bool
  deriving DecidableEq, Repr

/-- Result of the diagram script tail: events in order and exit code. -/
structure DiagResult where
  events : List DiagEvent
  exitCode : Nat
  deriving DecidableEq, Repr

/-- Lines 472-515 of `architecture-diagram.py`: write
`aws-architecture.svg`, then try `rsvg-convert`, `inkscape` and
ImageMagick `convert` in turn, guarded by the `conversion_successful`
flag; every converter failure is caught, and the script falls off the end
(exit code 0) whatever happened. -/
def diagramRun (env : ConvEnv) : DiagResult :=
  let ev0 := [DiagEvent.writeSVG "aws-architecture.svg"]
  if env.rsvgOk then
    ⟨ev0 ++ [DiagEvent.runConv "rsvg-convert" true], 0⟩
  else
    let ev1 := ev0 ++ [DiagEvent.runConv "rsvg-convert" false]
    if env.inkscapeOk then
      ⟨ev1 ++ [DiagEvent.runConv "inkscape" true], 0⟩
    else
      let ev2 := ev1 ++ [DiagEvent.runConv "inkscape" false]
      if env.magickOk then
        ⟨ev2 ++ [DiagEvent.runConv "convert" true], 0⟩
      else
        ⟨ev2 ++ [DiagEvent.runConv "convert" false], 0⟩

/-- The claimed behavior of the converter chain, written independently of
the script: attempt the tools in the given order and stop right after the
first success. -/
def firstSuccessChain : List (String × Bool) → List DiagEvent
  | [] => []
  | (t, ok) :: rest =>
      DiagEvent.runConv t ok :: (if ok then [] else firstSuccessChain rest)

end RagDiagram

namespace RagProvision

/-- Helper: a run that exits 0 leaves the index present with exactly the
schema body that was pushed. -/
theorem success_state (name : String) (body : IndexBody) (env : Env)
    (st : Option IndexBody)
    (h : (provisionRun name body env st).exitCode = 0) :
    (provisionRun name body env st).state = some body := by
  rcases env with ⟨ee, de, ce, he, ge, cr, hs⟩
  cases ee <;> cases st <;> cases de <;> cases ce <;> cases he <;> cases ge <;>
    simp_all [provisionRun, createPhase]

/-- Helper: a run that exits 0 issued the cluster-health read. -/
theorem success_health (name : String) (body : IndexBody) (env : Env)
    (st : Option IndexBody)
    (h : (provisionRun name body env st).exitCode = 0) :
    Call.clusterHealth name ∈ (provisionRun name body env st).trace := by
  rcases env with ⟨ee, de, ce, he, ge, cr, hs⟩
  cases ee <;> cases st <;> cases de <;> cases ce <;> cases he <;> cases ge <;>
    simp_all [provisionRun, createPhase]

/-- C1: every run's call trace is an initial segment of the one linear
sequence (check exists, delete when an index existed, create, health,
settings read) — so the order never varies and there is no branch back;
the delete call appears exactly when an index existed and the existence
check succeeded, so delete, when issued, precedes create; and the create
call is issued exactly when the steps before it succeeded, regardless of
whether a prior index existed. -/
theorem c1_linear_sequence (env : Env) (st : Option IndexBody) :
    (∃ k, (scriptRun env st).trace
        = (linearSeq index_name index_body st.isSome).take k)
    ∧ (Call.indicesDelete index_name ∈ (scriptRun env st).trace
        ↔ st.isSome = true ∧ env.existsErr = none)
    ∧ (Call.indicesCreate index_name index_body ∈ (scriptRun env st).trace
        ↔ env.existsErr = none ∧ (st.isSome = true → env.deleteErr = none)) := by
  rcases env with ⟨ee, de, ce, he, ge, cr, hs⟩
  refine ⟨?_, ?_, ?_⟩ <;>
    cases ee <;> cases st <;> cases de <;> cases ce <;> cases he <;> cases ge <;>
      simp [scriptRun, provisionRun, createPhase, linearSeq]
  all_goals first
    | exact ⟨1, rfl⟩ | exact ⟨2, rfl⟩ | exact ⟨3, rfl⟩
    | exact ⟨4, rfl⟩ | exact ⟨5, rfl⟩ | exact ⟨6, rfl⟩
    | exact ⟨6, by norm_num⟩

/-- C1 witness: at a run with a pre-existing index and no injected
failure, the delete call is in the trace. -/
theorem c1_linear_sequence_witness :
    Call.indicesDelete index_name
      ∈ (scriptRun ⟨none, none, none, none, none, "ack", "green"⟩
          (some index_body)).trace :=
  (c1_linear_sequence ⟨none, none, none, none, none, "ack", "green"⟩
    (some index_body)).2.1.mpr ⟨rfl, rfl⟩

/-- C2: no remote call is ever issued twice in one run (the trace has no
duplicates, so nothing is retried), and whichever remote call is the
first to raise ends the run right there: the trace stops at that call, the
exit code is 1, and the last stdout line is the printed error message. -/
theorem c2_abort_on_first_failure (env : Env) (st : Option IndexBody) :
    (scriptRun env st).trace.Nodup
    ∧ (∀ e, env.existsErr = some e →
        (scriptRun env st).trace = [Call.indicesExists index_name]
        ∧ (scriptRun env st).exitCode = 1
        ∧ (scriptRun env st).stdout.getLast? = some ("Error: " ++ e))
    ∧ (∀ e, env.existsErr = none → st.isSome = true → env.deleteErr = some e →
        (scriptRun env st).trace
          = [Call.indicesExists index_name, Call.indicesDelete index_name]
        ∧ (scriptRun env st).exitCode = 1
        ∧ (scriptRun env st).stdout.getLast? = some ("Error: " ++ e))
    ∧ (∀ e, env.existsErr = none → (st.isSome = true → env.deleteErr = none) →
        env.createErr = some e →
        (scriptRun env st).trace.getLast?
          = some (Call.indicesCreate index_name index_body)
        ∧ (scriptRun env st).exitCode = 1
        ∧ (scriptRun env st).stdout.getLast? = some ("Error: " ++ e))
    ∧ (∀ e, env.existsErr = none → (st.isSome = true → env.deleteErr = none) →
        env.createErr = none → env.healthErr = some e →
        (scriptRun env st).trace.getLast? = some (Call.clusterHealth index_name)
        ∧ (scriptRun env st).exitCode = 1
        ∧ (scriptRun env st).stdout.getLast? = some ("Error: " ++ e)) := by
  rcases env with ⟨ee, de, ce, he, ge, cr, hs⟩
  cases ee <;> cases st <;> cases de <;> cases ce <;> cases he <;> cases ge <;>
    simp [scriptRun, provisionRun, createPhase, List.getLast?]

/-- C2 witness: a run whose delete call raises stops after the delete
call, exits 1, and prints the error last. -/
theorem c2_abort_on_first_failure_witness :
    (scriptRun ⟨none, some "cluster_block_exception", none, none, none,
        "ack", "green"⟩ (some index_body)).trace
      = [Call.indicesExists index_name, Call.indicesDelete index_name]
    ∧ (scriptRun ⟨none, some "cluster_block_exception", none, none, none,
        "ack", "green"⟩ (some index_body)).exitCode = 1
    ∧ (scriptRun ⟨none, some "cluster_block_exception", none, none, none,
        "ack", "green"⟩ (some index_body)).stdout.getLast?
      = some ("Error: " ++ "cluster_block_exception") :=
  (c2_abort_on_first_failure
      ⟨none, some "cluster_block_exception", none, none, none, "ack", "green"⟩
      (some index_body)).2.2.1 "cluster_block_exception" rfl rfl rfl

/-- C3 counterexample: two successive runs in which every remote call
succeeds but the cluster reports health "red" both exit 0 and end with
the index present with the pushed body — yet its observed health is
"red", not healthy, so the claimed healthy common end state fails. -/
theorem c3_healthy_end_state_false :
    (provisionRun index_name index_body
        ⟨none, none, none, none, none, "ack", "red"⟩ none).exitCode = 0
    ∧ (provisionRun index_name index_body
        ⟨none, none, none, none, none, "ack", "red"⟩
        (provisionRun index_name index_body
          ⟨none, none, none, none, none, "ack", "red"⟩ none).state).exitCode = 0
    ∧ (provisionRun index_name index_body
        ⟨none, none, none, none, none, "ack", "red"⟩
        (provisionRun index_name index_body
          ⟨none, none, none, none, none, "ack", "red"⟩ none).state).state
      = some index_body
    ∧ ("Index health: " ++ "red")
        ∈ (provisionRun index_name index_body
            ⟨none, none, none, none, none, "ack", "red"⟩
            (provisionRun index_name index_body
              ⟨none, none, none, none, none, "ack", "red"⟩ none).state).stdout
    ∧ "red" ∉ (["green", "yellow"] : List String) := by
  decide

/-- C3 amended: the end state is idempotent up to the index itself —
whenever a run of `provisionRun` for a schema body succeeds and a second
run over the resulting state also succeeds, the state after the second
run equals the state after the first, namely the single index present
with exactly that body, and both runs read the index health; being
healthy is not part of the guarantee, since the code never inspects the
observed status. -/
theorem c3_idempotent_end_state (name : String) (body : IndexBody)
    (env1 env2 : Env) (st : Option IndexBody)
    (h1 : (provisionRun name body env1 st).exitCode = 0)
    (h2 : (provisionRun name body env2
            (provisionRun name body env1 st).state).exitCode = 0) :
    (provisionRun name body env2 (provisionRun name body env1 st).state).state
      = (provisionRun name body env1 st).state
    ∧ (provisionRun name body env1 st).state = some body
    ∧ Call.clusterHealth name
        ∈ (provisionRun name body env2
            (provisionRun name body env1 st).state).trace :=
  ⟨(success_state name body env2 _ h2).trans
      (success_state name body env1 st h1).symm,
   success_state name body env1 st h1,
   success_health name body env2 _ h2⟩

/-- C3 witness: two all-success runs starting from an absent index. -/
theorem c3_idempotent_end_state_witness :
    (provisionRun index_name index_body
        ⟨none, none, none, none, none, "ack", "green"⟩
        (provisionRun index_name index_body
          ⟨none, none, none, none, none, "ack", "green"⟩ none).state).state
      = (provisionRun index_name index_body
          ⟨none, none, none, none, none, "ack", "green"⟩ none).state
    ∧ (provisionRun index_name index_body
        ⟨none, none, none, none, none, "ack", "green"⟩ none).state
      = some index_body
    ∧ Call.clusterHealth index_name
        ∈ (provisionRun index_name index_body
            ⟨none, none, none, none, none, "ack", "green"⟩
            (provisionRun index_name index_body
              ⟨none, none, none, none, none, "ack", "green"⟩ none).state).trace :=
  c3_idempotent_end_state index_name index_body
    ⟨none, none, none, none, none, "ack", "green"⟩
    ⟨none, none, none, none, none, "ack", "green"⟩ none rfl rfl

/-- C4: when no index exists at the start of the run, the delete call is
never issued, and as soon as the existence check returns (it reports
absence as `false`, not as an error) the run goes straight on to the
create call: the trace begins with the existence check immediately
followed by create. -/
theorem c4_absent_index_no_delete (env : Env) (st : Option IndexBody)
    (hst : st = none) :
    Call.indicesDelete index_name ∉ (scriptRun env st).trace
    ∧ (env.existsErr = none →
        ∃ rest, (scriptRun env st).trace
          = Call.indicesExists index_name
            :: Call.indicesCreate index_name index_body :: rest) := by
  subst hst
  rcases env with ⟨ee, de, ce, he, ge, cr, hs⟩
  cases ee <;> cases ce <;> cases he <;> cases ge <;>
    simp [scriptRun, provisionRun, createPhase]

/-- C4 witness: with an absent index and a run whose create call raises,
no delete is issued and the trace is the existence check then create. -/
theorem c4_absent_index_no_delete_witness :
    Call.indicesDelete index_name
      ∉ (scriptRun ⟨none, none, some "boom", none, none, "ack", "green"⟩
          none).trace
    ∧ ∃ rest,
        (scriptRun ⟨none, none, some "boom", none, none, "ack", "green"⟩
          none).trace
        = Call.indicesExists index_name
          :: Call.indicesCreate index_name index_body :: rest :=
  ⟨(c4_absent_index_no_delete
      ⟨none, none, some "boom", none, none, "ack", "green"⟩ none rfl).1,
   (c4_absent_index_no_delete
      ⟨none, none, some "boom", none, none, "ack", "green"⟩ none rfl).2 rfl⟩

/-- C5 counterexample: the schema body does not declare only the three
fields of the scenario — `metadata` (and `created_at`, `updated_at`) are
also declared, so not every declared field name is among
document_id/content/embedding. -/
theorem c5_only_scenario_fields_false :
    ¬ ∀ p ∈ index_body.properties,
        p.1 ∈ (["document_id", "content", "embedding"] : List String) := by
  decide

/-- C5 amended: the schema body declares document_id as keyword, content
as analyzed text, and embedding as a 1536-dimensional hnsw/l2/nmslib
vector with ef_construction 512 and m 16, with ef_search 512 in the index
settings — and in addition three field mappings the scenario does not
list: metadata (an object of source/title/timestamp/page/chunk_index),
created_at (date) and updated_at (date), and nothing else. -/
theorem c5_schema_fields :
    index_body.properties.lookup "document_id" = some FieldType.keyword
    ∧ index_body.properties.lookup "content"
        = some (FieldType.text (some "standard"))
    ∧ index_body.properties.lookup "embedding"
        = some (FieldType.knnVector 1536 "hnsw" "l2" "nmslib" 512 16)
    ∧ index_body.ef_search = 512
    ∧ index_body.properties.lookup "metadata"
        = some (FieldType.objectOf
            [ ("source", LeafType.keyword)
            , ("title", LeafType.text none)
            , ("timestamp", LeafType.date)
            , ("page", LeafType.integer)
            , ("chunk_index", LeafType.integer) ])
    ∧ index_body.properties.lookup "created_at" = some FieldType.date
    ∧ index_body.properties.lookup "updated_at" = some FieldType.date
    ∧ index_body.properties.map Prod.fst
        = ["document_id", "content", "metadata", "embedding",
           "created_at", "updated_at"] := by
  decide

/-- C6 counterexample: a run in which every remote call succeeds but the
cluster reports health "red" still prints the observed status and exits
0 — the program does not restrict success to green or yellow. -/
theorem c6_success_only_green_yellow_false :
    (scriptRun ⟨none, none, none, none, none, "ack", "red"⟩ none).exitCode = 0
    ∧ ("Index health: " ++ "red")
        ∈ (scriptRun ⟨none, none, none, none, none, "ack", "red"⟩ none).stdout
    ∧ "red" ∉ (["green", "yellow"] : List String) := by
  decide

/-- C6 amended: on a run in which all remote calls succeed, the program
prints the health status actually observed from the remote service and
exits 0 — whatever that status is, "red" included; the code never checks
the value, so exit 0 does not imply health is green or yellow. -/
theorem c6_reports_observed_health (env : Env) (st : Option IndexBody)
    (hee : env.existsErr = none) (hde : st.isSome = true → env.deleteErr = none)
    (hce : env.createErr = none) (hhe : env.healthErr = none)
    (hge : env.getErr = none) :
    (scriptRun env st).exitCode = 0
    ∧ ("Index health: " ++ env.healthStatus) ∈ (scriptRun env st).stdout := by
  rcases env with ⟨ee, de, ce, he, ge, cr, hs⟩
  cases st <;> simp_all [scriptRun, provisionRun, createPhase]

/-- C6 amended witness: an all-success run with observed health "green". -/
theorem c6_reports_observed_health_witness :
    (scriptRun ⟨none, none, none, none, none, "ack", "green"⟩ none).exitCode = 0
    ∧ ("Index health: " ++ "green")
        ∈ (scriptRun ⟨none, none, none, none, none, "ack", "green"⟩
            none).stdout :=
  c6_reports_observed_health ⟨none, none, none, none, none, "ack", "green"⟩
    none rfl (fun _ => rfl) rfl rfl rfl

/-- C7: the delete-then-create pair is not atomic — on the concrete run
that starts with the index present and whose create call raises, the
index is deleted, the run exits 1, and no index remains. -/
theorem c7_not_atomic :
    (scriptRun ⟨none, none, some "cluster_block_exception", none, none,
        "ack", "green"⟩ (some index_body)).trace
      = [Call.indicesExists index_name, Call.indicesDelete index_name,
         Call.indicesCreate index_name index_body]
    ∧ (scriptRun ⟨none, none, some "cluster_block_exception", none, none,
        "ack", "green"⟩ (some index_body)).exitCode = 1
    ∧ (scriptRun ⟨none, none, some "cluster_block_exception", none, none,
        "ack", "green"⟩ (some index_body)).state = none := by
  decide

/-- C8: the create call always carries the constant name
rag-documents-prod and the constant schema body — for every environment
and every initial state, any create call found in the trace has exactly
those arguments, so no runtime input can change what is pushed. -/
theorem c8_constant_name_and_body (env : Env) (st : Option IndexBody)
    (n : String) (b : IndexBody)
    (h : Call.indicesCreate n b ∈ (scriptRun env st).trace) :
    n = index_name ∧ b = index_body := by
  rcases env with ⟨ee, de, ce, he, ge, cr, hs⟩
  cases ee <;> cases st <;> cases de <;> cases ce <;> cases he <;> cases ge <;>
    simp_all [scriptRun, provisionRun, createPhase]

/-- C8 witness: on an all-success run the create call in the trace indeed
names rag-documents-prod and the constant body. -/
theorem c8_constant_name_and_body_witness :
    ("rag-documents-prod" : String) = index_name ∧ index_body = index_body :=
  c8_constant_name_and_body ⟨none, none, none, none, none, "ack", "green"⟩
    none "rag-documents-prod" index_body (by decide)

/-- C9: stderr is never written, the exit code is always 0 or 1, every
failing run exits exactly 1 with the error message as the last stdout
line, and exit 0 requires that the existence check, the delete (when an
index existed), the create and the health read all completed without
exception. -/
theorem c9_exit_status_and_streams (env : Env) (st : Option IndexBody) :
    (scriptRun env st).stderr = []
    ∧ ((scriptRun env st).exitCode = 0 ∨ (scriptRun env st).exitCode = 1)
    ∧ ((scriptRun env st).exitCode ≠ 0 →
        (scriptRun env st).exitCode = 1
        ∧ ∃ e, (scriptRun env st).stdout.getLast? = some ("Error: " ++ e))
    ∧ ((scriptRun env st).exitCode = 0 →
        env.existsErr = none ∧ (st.isSome = true → env.deleteErr = none)
        ∧ env.createErr = none ∧ env.healthErr = none) := by
  rcases env with ⟨ee, de, ce, he, ge, cr, hs⟩
  cases ee <;> cases st <;> cases de <;> cases ce <;> cases he <;> cases ge <;>
    simp [scriptRun, provisionRun, createPhase, List.getLast?]

/-- C9 witness: a run whose existence check raises exits exactly 1 with
the error message as the last stdout line. -/
theorem c9_exit_status_and_streams_witness :
    (scriptRun ⟨some "boom", none, none, none, none, "ack", "green"⟩
        none).exitCode = 1
    ∧ ∃ e, (scriptRun ⟨some "boom", none, none, none, none, "ack", "green"⟩
        none).stdout.getLast? = some ("Error: " ++ e) :=
  (c9_exit_status_and_streams
      ⟨some "boom", none, none, none, none, "ack", "green"⟩ none).2.2.1
    (by decide)

end RagProvision

namespace RagDiagram

/-- C10: for every outcome of the three converter invocations, the
diagram script first writes aws-architecture.svg, then attempts
rsvg-convert, inkscape and ImageMagick convert in that fixed order
stopping at the first success, and exits 0 — also when every converter
fails. -/
theorem c10_diagram_chain (env : ConvEnv) :
    (diagramRun env).events.head? = some (DiagEvent.writeSVG "aws-architecture.svg")
    ∧ (diagramRun env).events
        = DiagEvent.writeSVG "aws-architecture.svg"
          :: firstSuccessChain
              [("rsvg-convert", env.rsvgOk), ("inkscape", env.inkscapeOk),
               ("convert", env.magickOk)]
    ∧ (diagramRun env).exitCode = 0 := by
  rcases env with ⟨r, i, m⟩
  cases r <;> cases i <;> cases m <;>
    simp [diagramRun, firstSuccessChain]

/-- C10 witness: the run in which every converter fails still writes the
SVG first, attempts all three tools in order, and exits 0. -/
theorem c10_diagram_chain_witness :
    (diagramRun ⟨false, false, false⟩).events.head?
      = some (DiagEvent.writeSVG "aws-architecture.svg")
    ∧ (diagramRun ⟨false, false, false⟩).events
        = DiagEvent.writeSVG "aws-architecture.svg"
          :: firstSuccessChain
              [("rsvg-convert", false), ("inkscape", false),
               ("convert", false)]
    ∧ (diagramRun ⟨false, false, false⟩).exitCode = 0 :=
  c10_diagram_chain ⟨false, false, false⟩

end RagDiagram
